import Mathlib

/-!
# delete-document example: a shallow embedding of `examples/delete-document/main.go`

The program loads its configuration (`init`), builds a connection URI, connects
to a MongoDB server, pings it, parses a hard-coded object identifier, deletes
at most one document with that identifier and prints the deleted count.

The Go program is embedded as a function from an explicit environment (`World`:
the answers of the file system, the driver and the server) to an outcome (exit
status, effect trace, server contents).  Library calls whose code is not part
of `main.go` (`fmt.Sprintf`, `primitive.ObjectIDFromHex`, the driver calls and
`log.Fatal`) are modelled after their documented behaviour.
-/

namespace DeleteDocument

/-! ## Data model -/

/-- Configuration record `MongoConfig` (main.go, lines 16-23). -/
structure MongoConfig where
  User : String
  Password : String
  Host : String
  Port : String
  Database : String
  Collection : String
deriving DecidableEq, Repr

/-- An object identifier (`primitive.ObjectID`, a `[12]byte`), as its list of bytes. -/
abbrev ObjectID := List Nat

/-- Go `error` values that can reach `main`. -/
inductive GoError
  /-- Go `primitive.ErrInvalidHex`: the string is not 24 bytes long. -/
  | ErrInvalidHex
  /-- Go `hex.InvalidByteError`: the byte that is no hexadecimal digit. -/
  | InvalidByteError (b : Nat)
  /-- Go `hex.ErrLength`: odd number of hexadecimal digits. -/
  | ErrLength
  /-- An error reported by the driver, the network or the server, with its text. -/
  | reported (text : String)
deriving DecidableEq, Repr

/-- An upper-case hexadecimal digit, as `fmt` prints it. -/
def upperHexDigit (n : Nat) : Char := "0123456789ABCDEF".data.getD n '0'

/-- Go `strconv.IsPrint` on a byte value: space through `~`, and `0xA1` through
`0xFF` except the soft hyphen `0xAD`. -/
def isPrintByte (b : Nat) : Bool :=
  (0x20 ≤ b && b < 0x7F) || (0xA1 ≤ b && b ≤ 0xFF && b != 0xAD)

/-- The verb `%#U` of `fmt` on a byte value: `U+` and four hexadecimal digits,
followed by the quoted character when it is printable, as in `U+007A 'z'`. -/
def formatUnicode (b : Nat) : String :=
  "U+00" ++ String.mk [upperHexDigit (b / 16 % 16), upperHexDigit (b % 16)] ++
    (if isPrintByte b then " '" ++ String.mk [Char.ofNat b] ++ "'" else "")

/-- Method `Error()` of an error value: its text. -/
def GoError.text : GoError → String
  | .ErrInvalidHex => "the provided hex string is not a valid ObjectID"
  | .InvalidByteError b => "encoding/hex: invalid byte: " ++ formatUnicode b
  | .ErrLength => "encoding/hex: odd length hex string"
  | .reported t => t

/-- The values a BSON field can hold, as far as this example needs them. -/
inductive BsonValue
  | objectID (id : ObjectID)
  | string (s : String)
  | int (n : Int)
deriving DecidableEq, Repr

/-- A stored document: its fields in order. -/
abbrev Document := List (String × BsonValue)

/-- A query filter (`bson.M`): field name / required value pairs. -/
abbrev Filter := List (String × BsonValue)

/-- The contents of a server: the documents of every collection of every database. -/
abbrev Server := String → String → List Document

/-- A collection handle (`*mongo.Collection`): database name and collection name. -/
structure CollectionHandle where
  database : String
  name : String
deriving DecidableEq, Repr

/-- A client handle (`*mongo.Client`), remembering the URI it was built from. -/
structure Client where
  uri : String
deriving DecidableEq, Repr

/-- Result of a delete (`*mongo.DeleteResult`). -/
structure DeleteResult where
  DeletedCount : Nat
deriving DecidableEq, Repr

/-- Argument handed to `log.Fatal`: a string or an error value. -/
inductive LogValue
  | str (s : String)
  | err (e : GoError)
deriving DecidableEq, Repr

/-- Observable effects of the program, in the order they happen. -/
inductive Event
  /-- Go `mongo.Connect(ctx, options.Client().ApplyURI(uri))` was called. -/
  | connect (uri : String)
  /-- Go `client.Ping(ctx, nil)` was called. -/
  | ping
  /-- Go `collection.DeleteOne(ctx, filter)` was called. -/
  | deleteOne (coll : CollectionHandle) (filter : Filter)
  /-- Go `client.Disconnect(ctx)` was called. -/
  | disconnect
  /-- Go `fmt.Println` wrote this text to standard output. -/
  | println (text : String)
  /-- Go `log.Fatal` logged this value (the process then exits with status 1). -/
  | fatal (v : LogValue)
deriving DecidableEq, Repr

/-- The environment of one run: what every external call answers. -/
structure World where
  /-- Error of `godotenv.Load()`, if any. -/
  dotenvErr : Option String
  /-- Values of `os.Getenv` after loading (an unset variable reads as `""`). -/
  getenv : String → String
  /-- Error of `mongo.Connect` for a given URI, if any. -/
  connectErr : String → Option String
  /-- Error of `client.Ping`, if any. -/
  pingErr : Option String
  /-- Error of the delete request itself (transport or server), if any. -/
  deleteErr : Option String
  /-- Error of `client.Disconnect`, if any. -/
  disconnectErr : Option String

/-! ## Process semantics: effects, `os.Exit` and `defer` -/

/-- State of the running process: effects so far and the server contents. -/
structure Proc where
  trace : List Event
  server : Server

/-- Result of running a piece of Go code: it returns a value, or the process has exited. -/
inductive Res (α : Type) where
  | ret (a : α) (s : Proc)
  | exit (code : Nat) (s : Proc)

/-- Go code with effects on the process state. -/
def M (α : Type) : Type := Proc → Res α

/-- Return a value without an effect. -/
def M.pure {α : Type} (a : α) : M α := fun s => .ret a s

/-- Sequencing: once the process has exited nothing further runs. -/
def M.bind {α β : Type} (m : M α) (f : α → M β) : M β := fun s =>
  match m s with
  | .ret a s1 => f a s1
  | .exit c s1 => .exit c s1

instance : Monad M where
  pure := M.pure
  bind := M.bind

/-- Record one effect. -/
def emit (e : Event) : M Unit := fun s => .ret () { s with trace := s.trace ++ [e] }

/-- Go `log.Fatal(v)`: print `v`, then `os.Exit(1)`.  The process terminates
immediately; deferred functions are not run. -/
def logFatal {α : Type} (v : LogValue) : M α := fun s =>
  .exit 1 { s with trace := s.trace ++ [.fatal v] }

/-- Go `defer deferred; body`: the deferred call runs when the surrounding function
returns; it does not run when the process exits through `os.Exit`. -/
def withDefer {α : Type} (deferred : M Unit) (body : M α) : M α := fun s =>
  match body s with
  | .ret a s1 =>
    match deferred s1 with
    | .ret _ s2 => .ret a s2
    | .exit c s2 => .exit c s2
  | .exit c s1 => .exit c s1

/-! ## Library calls -/

/-- Formatting core of `fmt.Sprintf` for string arguments: `%s` takes the next
argument, `%%` is a percent sign, a missing argument prints `%!s(MISSING)`,
arguments left over print as `%!(EXTRA ...)`. -/
def sprintfAux : List Char → List String → List Char
  | '%' :: 's' :: rest, a :: args => a.data ++ sprintfAux rest args
  | '%' :: 's' :: rest, [] => "%!s(MISSING)".data ++ sprintfAux rest []
  | '%' :: '%' :: rest, args => '%' :: sprintfAux rest args
  | c :: rest, args => c :: sprintfAux rest args
  | [], [] => []
  | [], a :: args =>
    ("%!(EXTRA " ++ ", ".intercalate ((a :: args).map (fun x => "string=" ++ x)) ++ ")").data

/-- Go `fmt.Sprintf(format, args...)` for string arguments. -/
def Sprintf (format : String) (args : List String) : String :=
  String.mk (sprintfAux format.data args)

/-- The UTF-8 encoding of one character, as a list of byte values. -/
def utf8Bytes (c : Char) : List Nat :=
  if c.toNat < 0x80 then [c.toNat]
  else if c.toNat < 0x800 then [0xC0 + c.toNat / 64, 0x80 + c.toNat % 64]
  else if c.toNat < 0x10000 then
    [0xE0 + c.toNat / 4096, 0x80 + c.toNat / 64 % 64, 0x80 + c.toNat % 64]
  else
    [0xF0 + c.toNat / 262144, 0x80 + c.toNat / 4096 % 64, 0x80 + c.toNat / 64 % 64,
      0x80 + c.toNat % 64]

/-- The bytes of a Go string: a Go string is a sequence of bytes, and a string
written in the source holds the UTF-8 encoding of its characters. -/
def goBytes (s : String) : List Nat := (s.data.map utf8Bytes).flatten

/-- Go `fromHexChar` of `encoding/hex`: the value of a byte that is a hexadecimal digit. -/
def fromHexChar (c : Nat) : Option Nat :=
  if '0'.toNat ≤ c ∧ c ≤ '9'.toNat then some (c - '0'.toNat)
  else if 'a'.toNat ≤ c ∧ c ≤ 'f'.toNat then some (c - 'a'.toNat + 10)
  else if 'A'.toNat ≤ c ∧ c ≤ 'F'.toNat then some (c - 'A'.toNat + 10)
  else none

/-- Go `hex.DecodeString` on the bytes of its argument: two digits per byte, the
first byte that is no digit is reported. -/
def hexDecode : List Nat → Except GoError (List Nat)
  | [] => .ok []
  | [p] =>
    match fromHexChar p with
    | none => .error (.InvalidByteError p)
    | some _ => .error .ErrLength
  | p :: q :: rest =>
    match fromHexChar p with
    | none => .error (.InvalidByteError p)
    | some a =>
      match fromHexChar q with
      | none => .error (.InvalidByteError q)
      | some b =>
        match hexDecode rest with
        | .error e => .error e
        | .ok bs => .ok ((a * 16 + b) :: bs)

/-- Go `primitive.ObjectIDFromHex(s)` of the driver (a library function, its code is
not part of main.go): fails with `ErrInvalidHex` unless `len(s)`, the length in
bytes, is 24, then decodes the hexadecimal digits with `hex.DecodeString`. -/
def ObjectIDFromHex (s : String) : Except GoError ObjectID :=
  if (goBytes s).length ≠ 24 then .error .ErrInvalidHex
  else hexDecode (goBytes s)

/-- Go `mongo.Connect(ctx, options.Client().ApplyURI(uri))`. -/
def mongoConnect (w : World) (uri : String) : M (Except GoError Client) := do
  emit (.connect uri)
  match w.connectErr uri with
  | some e => pure (.error (.reported e))
  | none => pure (.ok { uri := uri })

/-- Go `client.Ping(ctx, nil)`. -/
def Ping (w : World) (_client : Client) : M (Option GoError) := do
  emit .ping
  match w.pingErr with
  | some e => pure (some (.reported e))
  | none => pure none

/-- Go `client.Disconnect(ctx)`. -/
def Disconnect (w : World) (_client : Client) : M (Option GoError) := do
  emit .disconnect
  match w.disconnectErr with
  | some e => pure (some (.reported e))
  | none => pure none

/-- Go `client.Database(database).Collection(name)`: builds a handle, no effect. -/
def Client.collection (_client : Client) (database name : String) : CollectionHandle :=
  { database := database, name := name }

/-- Whether a document satisfies a filter: every field the filter names is
present in the document with exactly the required value. -/
def Filter.matches (f : Filter) (d : Document) : Bool :=
  f.all (fun kv => d.lookup kv.1 == some kv.2)

/-- Modelled from the spec: the store's delete-one request (the server is an
external collaborator, its code is not in the repository).  "Requests the store
delete at most one matching document": the first document satisfying the filter
is removed and the count is 1, or nothing matches, nothing changes and the count is 0. -/
def deleteFirst (f : Filter) : List Document → List Document × Nat
  | [] => ([], 0)
  | d :: ds =>
    if f.matches d then (ds, 1)
    else ((d :: (deleteFirst f ds).1), (deleteFirst f ds).2)

/-- Replace the documents of one collection of the server. -/
def Server.set (srv : Server) (c : CollectionHandle) (docs : List Document) : Server :=
  fun db name => if db = c.database ∧ name = c.name then docs else srv db name

/-- Go `collection.DeleteOne(ctx, filter)`: the request either fails (nothing is
deleted) or the server deletes the first matching document of the collection. -/
def DeleteOne (w : World) (c : CollectionHandle) (filter : Filter) :
    M (Except GoError DeleteResult) := fun s =>
  let s1 : Proc := { s with trace := s.trace ++ [.deleteOne c filter] }
  match w.deleteErr with
  | some e => .ret (.error (.reported e)) s1
  | none =>
    let r := deleteFirst filter (s1.server c.database c.name)
    .ret (.ok { DeletedCount := r.2 }) { s1 with server := s1.server.set c r.1 }

/-- Go `fmt.Println(n)` for an integer: its decimal digits and a newline. -/
def Println (n : Nat) : M Unit := emit (.println (toString n ++ "\n"))

/-! ## The program -/

/-- Function `init` (main.go, lines 29-41): load `.env`, read the six variables. -/
def init (w : World) : M MongoConfig :=
  match w.dotenvErr with
  | some _ => logFatal (.str "Error loading .env file")
  | none =>
    pure
      { User := w.getenv "MONGO_USER"
        Password := w.getenv "MONGO_PASSWORD"
        Host := w.getenv "MONGO_HOST"
        Port := w.getenv "MONGO_PORT"
        Database := w.getenv "MONGO_DATABASE"
        Collection := w.getenv "MONGO_COLLECTION" }

/-- The connection URI of main.go, lines 45-46. -/
def mongoURI (mongoConfig : MongoConfig) : String :=
  Sprintf "mongodb://%s:%s@%s:%s/"
    [mongoConfig.User, mongoConfig.Password, mongoConfig.Host, mongoConfig.Port]

/-- The filter of main.go, lines 78-80: `bson.M` with the one entry `"_id": id`. -/
def idFilter (id : ObjectID) : Filter := [("_id", .objectID id)]

/-- The deferred closure of main.go, lines 58-62. -/
def deferredDisconnect (w : World) (client : Client) : M Unit := do
  match (← Disconnect w client) with
  | some e => logFatal (.str ("MongoDB disconnection error: " ++ e.text))
  | none => pure ()

/-- Lines 64-89 of `main`, the part that runs after the `defer` statement. -/
def afterDefer (w : World) (mongoConfig : MongoConfig) (hex : String) (client : Client) :
    M Unit := do
  -- check connection
  match (← Ping w client) with
  | some e => logFatal (.err e)
  | none =>
  -- set database and collection
  let collection := client.collection mongoConfig.Database mongoConfig.Collection
  -- filter
  match ObjectIDFromHex hex with
  | .error e => logFatal (.err e)
  | .ok id =>
  let filter := idFilter id
  -- delete object
  match (← DeleteOne w collection filter) with
  | .error e => logFatal (.err e)
  | .ok result =>
  -- print result
  Println result.DeletedCount

/-- Function `main` (main.go, lines 43-91) with the identifier literal of line 74
as the parameter `hex`. -/
def mainWith (w : World) (mongoConfig : MongoConfig) (hex : String) : M Unit := do
  let uri := mongoURI mongoConfig
  if uri == "" then
    logFatal (.str "You must set your 'uri' variable.")
  -- connection
  match (← mongoConnect w uri) with
  | .error e => logFatal (.str ("MongoDB connection error: " ++ e.text))
  | .ok client =>
  withDefer (deferredDisconnect w client) (afterDefer w mongoConfig hex client)

/-- The identifier literal of main.go, line 74. -/
def targetHex : String := "642f238625b383fba5ca34f0"

/-- Function `main` as written: the identifier is the literal of line 74. -/
def main (w : World) (mongoConfig : MongoConfig) : M Unit :=
  mainWith w mongoConfig targetHex

/-- What a finished run leaves behind. -/
structure Outcome where
  exitCode : Nat
  trace : List Event
  server : Server

/-- Turn the result of the program into an outcome: returning from `main` is exit status 0. -/
def Res.outcome {α : Type} : Res α → Outcome
  | .ret _ s => { exitCode := 0, trace := s.trace, server := s.server }
  | .exit c s => { exitCode := c, trace := s.trace, server := s.server }

/-- One run of the program with identifier `hex`: `init`, then `main`. -/
def runWith (w : World) (srv : Server) (hex : String) : Outcome :=
  ((init w >>= fun cfg => mainWith w cfg hex) { trace := [], server := srv }).outcome

/-- One run of the program as written. -/
def run (w : World) (srv : Server) : Outcome :=
  ((init w >>= fun cfg => main w cfg) { trace := [], server := srv }).outcome

/-- The texts written to standard output, in order. -/
def stdout (t : List Event) : List String :=
  t.filterMap (fun e => match e with | .println s => some s | _ => none)

/-! ## Vocabulary of the specification -/

/-- The configuration that `init` reads from the environment. -/
def World.config (w : World) : MongoConfig :=
  { User := w.getenv "MONGO_USER"
    Password := w.getenv "MONGO_PASSWORD"
    Host := w.getenv "MONGO_HOST"
    Port := w.getenv "MONGO_PORT"
    Database := w.getenv "MONGO_DATABASE"
    Collection := w.getenv "MONGO_COLLECTION" }

/-- The collection that `main` selects (main.go, line 71). -/
def World.handle (w : World) : CollectionHandle :=
  { database := w.config.Database, name := w.config.Collection }

/-- Loading `.env`, connecting, pinging and the delete request all succeed. -/
def World.Healthy (w : World) : Prop :=
  w.dotenvErr = none ∧ w.connectErr (mongoURI w.config) = none ∧ w.pingErr = none ∧
    w.deleteErr = none

instance (w : World) : Decidable w.Healthy := by
  unfold World.Healthy; infer_instance

/-- A hexadecimal digit, in either case. -/
def isHexChar (c : Char) : Bool := "0123456789abcdefABCDEF".data.contains c

/-- A malformed identifier string: wrong length, or some character is no hexadecimal digit. -/
def Malformed (hex : String) : Prop :=
  hex.length ≠ 24 ∨ ∃ c ∈ hex.data, isHexChar c = false

instance (hex : String) : Decidable (Malformed hex) := by
  unfold Malformed; infer_instance

/-- Whether a document has the identifier `id` (its `_id` field holds it). -/
def hasId (id : ObjectID) (d : Document) : Bool :=
  d.lookup "_id" == some (.objectID id)

/-- The call of `mongo.Connect`. -/
def Event.isConnect : Event → Bool
  | .connect _ => true
  | _ => false

/-- The call of `client.Ping`. -/
def Event.isPing : Event → Bool
  | .ping => true
  | _ => false

/-- The call of `collection.DeleteOne`. -/
def Event.isDelete : Event → Bool
  | .deleteOne _ _ => true
  | _ => false

/-- The call of `client.Disconnect`. -/
def Event.isDisconnect : Event → Bool
  | .disconnect => true
  | _ => false

/-- A write to standard output. -/
def Event.isPrint : Event → Bool
  | .println _ => true
  | _ => false

/-- A call of `log.Fatal`. -/
def Event.isFatal : Event → Bool
  | .fatal _ => true
  | _ => false

/-! ## The end-to-end scenario of the specification -/

/-- Environment of the scenario: user `u`, password `p`, host `localhost`, port
`27017`, database `db`, collection `coll`. -/
def scenarioEnv (key : String) : String :=
  if key = "MONGO_USER" then "u"
  else if key = "MONGO_PASSWORD" then "p"
  else if key = "MONGO_HOST" then "localhost"
  else if key = "MONGO_PORT" then "27017"
  else if key = "MONGO_DATABASE" then "db"
  else if key = "MONGO_COLLECTION" then "coll"
  else ""

/-- The scenario with a reachable store: every external call succeeds. -/
def scenarioWorld : World :=
  { dotenvErr := none
    getenv := scenarioEnv
    connectErr := fun _ => none
    pingErr := none
    deleteErr := none
    disconnectErr := none }

/-- The scenario, but the `.env` file cannot be loaded. -/
def dotenvFailsWorld : World :=
  { scenarioWorld with dotenvErr := some "open .env: no such file or directory" }

/-- The scenario with the variable `MONGO_PORT` set to `port`, which is no number:
the driver does not accept the URI and `mongo.Connect` returns an error (the text
stands for the driver's message). -/
def connectFailsWorld : World :=
  { scenarioWorld with
    getenv := fun key => if key = "MONGO_PORT" then "port" else scenarioEnv key
    connectErr := fun uri =>
      if uri = "mongodb://u:p@localhost:port/" then some "error parsing uri: invalid port"
      else none }

/-- The scenario, but the ping is not answered. -/
def pingFailsWorld : World :=
  { scenarioWorld with pingErr := some "server selection timeout" }

/-- The scenario, but the delete request fails on the way to the server. -/
def deleteFailsWorld : World :=
  { scenarioWorld with deleteErr := some "connection reset by peer" }

/-- The scenario, but closing the connection fails. -/
def disconnectFailsWorld : World :=
  { scenarioWorld with disconnectErr := some "client is disconnected" }

/-- The scenario with the variable `MONGO_DATABASE` unset (it reads as the empty
string): connecting and pinging succeed, and the driver answers the delete request
on a database without a name with an error. -/
def emptyDatabaseWorld : World :=
  { scenarioWorld with
    getenv := fun key => if key = "MONGO_DATABASE" then "" else scenarioEnv key
    deleteErr := some "the Database field must be set on Operation" }

/-- The bytes of the identifier literal of main.go, line 74. -/
def targetID : ObjectID :=
  [0x64, 0x2f, 0x23, 0x86, 0x25, 0xb3, 0x83, 0xfb, 0xa5, 0xca, 0x34, 0xf0]

/-- A server without documents. -/
def emptyServer : Server := fun _ _ => []

/-- A server whose collection `db.coll` holds the target document and one other document. -/
def scenarioServer : Server := fun db name =>
  if db = "db" ∧ name = "coll" then
    [[("_id", .objectID [1, 2, 3, 4, 5, 6, 7, 8, 9, 10, 11, 12]), ("name", .string "other")],
     [("_id", .objectID targetID), ("name", .string "target")]]
  else []

/-! # Theorems -/

/-! ## Lemmas: the connection URI -/

theorem mongoURI_eq (c : MongoConfig) :
    mongoURI c =
      "mongodb://" ++ c.User ++ ":" ++ c.Password ++ "@" ++ c.Host ++ ":" ++ c.Port ++ "/" := by
  apply String.ext
  simp [mongoURI, Sprintf, sprintfAux]

theorem mongoURI_ne_empty (c : MongoConfig) : mongoURI c ≠ "" := by
  intro h
  have := congrArg String.data h
  simp [mongoURI, Sprintf, sprintfAux] at this

theorem guardText_ne_connect (x : String) :
    "You must set your 'uri' variable." ≠ "MongoDB connection error: " ++ x := by
  intro h
  have := congrArg String.data h
  simp at this

theorem guardText_ne_disconnect (x : String) :
    "You must set your 'uri' variable." ≠ "MongoDB disconnection error: " ++ x := by
  intro h
  have := congrArg String.data h
  simp at this

/-! ## Lemmas: the seven paths through the program -/

theorem runWith_dotenv (w : World) (srv : Server) (hex e : String) (h : w.dotenvErr = some e) :
    runWith w srv hex = ⟨1, [.fatal (.str "Error loading .env file")], srv⟩ := by
  simp [runWith, init, h, logFatal, Bind.bind, M.bind, Res.outcome]

theorem runWith_connect (w : World) (srv : Server) (hex e : String) (h0 : w.dotenvErr = none)
    (h1 : w.connectErr (mongoURI w.config) = some e) :
    runWith w srv hex = ⟨1, [.connect (mongoURI w.config),
      .fatal (.str ("MongoDB connection error: " ++ e))], srv⟩ := by
  have hne := mongoURI_ne_empty w.config
  simp only [World.config] at h1 hne
  simp [runWith, init, h0, mainWith, mongoConnect, emit, logFatal, Bind.bind, M.bind, Pure.pure,
    M.pure, Res.outcome, World.config, hne, h1, GoError.text]

theorem runWith_ping (w : World) (srv : Server) (hex e : String) (h0 : w.dotenvErr = none)
    (h1 : w.connectErr (mongoURI w.config) = none) (h2 : w.pingErr = some e) :
    runWith w srv hex = ⟨1, [.connect (mongoURI w.config), .ping,
      .fatal (.err (.reported e))], srv⟩ := by
  have hne := mongoURI_ne_empty w.config
  simp only [World.config] at h1 hne
  simp [runWith, init, h0, mainWith, mongoConnect, emit, logFatal, Bind.bind, M.bind, Pure.pure,
    M.pure, Res.outcome, World.config, hne, h1, h2, withDefer, afterDefer, Ping]

theorem runWith_parse (w : World) (srv : Server) (hex : String) (e : GoError)
    (h0 : w.dotenvErr = none)
    (h1 : w.connectErr (mongoURI w.config) = none) (h2 : w.pingErr = none)
    (h3 : ObjectIDFromHex hex = .error e) :
    runWith w srv hex = ⟨1, [.connect (mongoURI w.config), .ping, .fatal (.err e)], srv⟩ := by
  have hne := mongoURI_ne_empty w.config
  simp only [World.config] at h1 hne
  simp [runWith, init, h0, mainWith, mongoConnect, emit, logFatal, Bind.bind, M.bind, Pure.pure,
    M.pure, Res.outcome, World.config, hne, h1, h2, h3, withDefer, afterDefer, Ping]

theorem runWith_delete (w : World) (srv : Server) (hex e : String) (id : ObjectID)
    (h0 : w.dotenvErr = none)
    (h1 : w.connectErr (mongoURI w.config) = none) (h2 : w.pingErr = none)
    (h3 : ObjectIDFromHex hex = .ok id) (h4 : w.deleteErr = some e) :
    runWith w srv hex = ⟨1, [.connect (mongoURI w.config), .ping,
      .deleteOne ⟨w.config.Database, w.config.Collection⟩ (idFilter id),
      .fatal (.err (.reported e))], srv⟩ := by
  have hne := mongoURI_ne_empty w.config
  simp only [World.config] at h1 hne
  simp [runWith, init, h0, mainWith, mongoConnect, emit, logFatal, Bind.bind, M.bind, Pure.pure,
    M.pure, Res.outcome, World.config, hne, h1, h2, h3, h4, withDefer, afterDefer, Ping, DeleteOne,
    Client.collection]

theorem runWith_ok (w : World) (srv : Server) (hex : String) (id : ObjectID)
    (h0 : w.dotenvErr = none)
    (h1 : w.connectErr (mongoURI w.config) = none) (h2 : w.pingErr = none)
    (h3 : ObjectIDFromHex hex = .ok id) (h4 : w.deleteErr = none) (h5 : w.disconnectErr = none) :
    runWith w srv hex = ⟨0, [.connect (mongoURI w.config), .ping,
      .deleteOne ⟨w.config.Database, w.config.Collection⟩ (idFilter id),
      .println (toString (deleteFirst (idFilter id) (srv w.config.Database w.config.Collection)).2
        ++ "\n"),
      .disconnect],
      srv.set ⟨w.config.Database, w.config.Collection⟩
        (deleteFirst (idFilter id) (srv w.config.Database w.config.Collection)).1⟩ := by
  have hne := mongoURI_ne_empty w.config
  simp only [World.config] at h1 hne
  simp [runWith, init, h0, mainWith, mongoConnect, emit, logFatal, Bind.bind, M.bind, Pure.pure,
    M.pure, Res.outcome, World.config, hne, h1, h2, h3, h4, h5, withDefer, afterDefer, Ping,
    DeleteOne, Client.collection, Println, deferredDisconnect, Disconnect]

theorem runWith_disconnect (w : World) (srv : Server) (hex e : String) (id : ObjectID)
    (h0 : w.dotenvErr = none)
    (h1 : w.connectErr (mongoURI w.config) = none) (h2 : w.pingErr = none)
    (h3 : ObjectIDFromHex hex = .ok id) (h4 : w.deleteErr = none)
    (h5 : w.disconnectErr = some e) :
    runWith w srv hex = ⟨1, [.connect (mongoURI w.config), .ping,
      .deleteOne ⟨w.config.Database, w.config.Collection⟩ (idFilter id),
      .println (toString (deleteFirst (idFilter id) (srv w.config.Database w.config.Collection)).2
        ++ "\n"),
      .disconnect, .fatal (.str ("MongoDB disconnection error: " ++ e))],
      srv.set ⟨w.config.Database, w.config.Collection⟩
        (deleteFirst (idFilter id) (srv w.config.Database w.config.Collection)).1⟩ := by
  have hne := mongoURI_ne_empty w.config
  simp only [World.config] at h1 hne
  simp [runWith, init, h0, mainWith, mongoConnect, emit, logFatal, Bind.bind, M.bind, Pure.pure,
    M.pure, Res.outcome, World.config, hne, h1, h2, h3, h4, h5, withDefer, afterDefer, Ping,
    DeleteOne, Client.collection, Println, deferredDisconnect, Disconnect, GoError.text]

/-! ## Lemmas: identifier parsing -/

theorem fromHexChar_isSome_of_isHexChar (c : Char) (h : isHexChar c = true) :
    (fromHexChar c.toNat).isSome = true := by
  simp [isHexChar] at h
  rcases h with h | h | h | h | h | h | h | h | h | h | h | h | h | h | h | h | h | h | h | h | h | h <;>
    subst h <;> decide

theorem lt_of_fromHexChar (b : Nat) (h : fromHexChar b ≠ none) : b < 128 := by
  unfold fromHexChar at h
  have e1 : '9'.toNat = 57 := by decide
  have e2 : 'f'.toNat = 102 := by decide
  have e3 : 'F'.toNat = 70 := by decide
  split_ifs at h with h1 h2 h3
  · omega
  · omega
  · omega
  · exact absurd rfl h

theorem isHexChar_of_fromHexChar (c : Char) (h : fromHexChar c.toNat ≠ none) :
    isHexChar c = true := by
  have hc : c = Char.ofNat c.toNat := (Char.ofNat_toNat c).symm
  unfold fromHexChar at h
  have e0 : '0'.toNat = 48 := by decide
  have e1 : '9'.toNat = 57 := by decide
  have e2 : 'a'.toNat = 97 := by decide
  have e3 : 'f'.toNat = 102 := by decide
  have e4 : 'A'.toNat = 65 := by decide
  have e5 : 'F'.toNat = 70 := by decide
  rw [e0, e1, e2, e3, e4, e5] at h
  generalize c.toNat = n at hc h
  subst hc
  split_ifs at h with h1 h2 h3
  · obtain ⟨a, b⟩ := h1
    interval_cases n <;> decide
  · obtain ⟨a, b⟩ := h2
    interval_cases n <;> decide
  · obtain ⟨a, b⟩ := h3
    interval_cases n <;> decide
  · exact absurd rfl h

/-- A character all of whose bytes are hexadecimal digits is one byte long. -/
theorem utf8Bytes_of_hex (c : Char) (h : ∀ b ∈ utf8Bytes c, fromHexChar b ≠ none) :
    utf8Bytes c = [c.toNat] := by
  unfold utf8Bytes at h ⊢
  split_ifs at h ⊢ with h1 h2 h3
  · rfl
  · have := lt_of_fromHexChar _ (h _ (List.mem_cons_self _ _))
    omega
  · have := lt_of_fromHexChar _ (h _ (List.mem_cons_self _ _))
    omega
  · have := lt_of_fromHexChar _ (h _ (List.mem_cons_self _ _))
    omega

theorem utf8Bytes_of_isHexChar (c : Char) (h : isHexChar c = true) :
    utf8Bytes c = [c.toNat] := by
  have h1 := fromHexChar_isSome_of_isHexChar c h
  have h2 : c.toNat < 128 := lt_of_fromHexChar _ (by
    intro hn
    simp [hn] at h1)
  simp [utf8Bytes, h2]

theorem join_map_utf8Bytes_hex (l : List Char) (h : ∀ c ∈ l, isHexChar c = true) :
    (l.map utf8Bytes).flatten = l.map Char.toNat := by
  induction l with
  | nil => rfl
  | cons c cs ih =>
    have hc := utf8Bytes_of_isHexChar c (h c (by simp))
    have := ih (fun x hx => h x (by simp [hx]))
    simp [hc, this]

/-- When every byte of a string is a hexadecimal digit, so is every character. -/
theorem chars_hex_of_bytes_hex (l : List Char)
    (h : ∀ b ∈ (l.map utf8Bytes).flatten, fromHexChar b ≠ none) :
    ∀ c ∈ l, isHexChar c = true := by
  intro c hc
  have hb : ∀ b ∈ utf8Bytes c, fromHexChar b ≠ none := by
    intro b hb
    apply h
    simp only [List.mem_flatten, List.mem_map]
    exact ⟨utf8Bytes c, ⟨c, hc, rfl⟩, hb⟩
  have h1 := utf8Bytes_of_hex c hb
  apply isHexChar_of_fromHexChar
  apply hb
  rw [h1]
  simp

theorem hexDecode_bad (l : List Nat) (h : ∃ c ∈ l, fromHexChar c = none) :
    ∃ b, hexDecode l = .error (.InvalidByteError b) := by
  induction l using hexDecode.induct with
  | case1 => simp at h
  | case2 p hp => exact ⟨p, by simp [hexDecode, hp]⟩
  | case3 p a hp => simp [hp] at h
  | case4 p q rest hp => exact ⟨p, by simp [hexDecode, hp]⟩
  | case5 p q rest a hp hq => exact ⟨q, by simp [hexDecode, hp, hq]⟩
  | case6 p q rest a hp b hq e he ih =>
    have : ∃ c ∈ rest, fromHexChar c = none := by
      obtain ⟨c, hc, hn⟩ := h
      simp at hc
      rcases hc with rfl | rfl | hc
      · simp [hp] at hn
      · simp [hq] at hn
      · exact ⟨c, hc, hn⟩
    obtain ⟨b', hb⟩ := ih this
    exact ⟨b', by simp [hexDecode, hp, hq, hb]⟩
  | case7 p q rest a hp b hq bs he ih =>
    have : ∃ c ∈ rest, fromHexChar c = none := by
      obtain ⟨c, hc, hn⟩ := h
      simp at hc
      rcases hc with rfl | rfl | hc
      · simp [hp] at hn
      · simp [hq] at hn
      · exact ⟨c, hc, hn⟩
    obtain ⟨b', hb⟩ := ih this
    simp [hb] at he

theorem malformed_rejected (hex : String) (h : Malformed hex) :
    ∃ e, ObjectIDFromHex hex = .error e ∧ (e = .ErrInvalidHex ∨ ∃ b, e = .InvalidByteError b) := by
  unfold ObjectIDFromHex
  by_cases hlen : (goBytes hex).length = 24
  · have hbad : ∃ b ∈ goBytes hex, fromHexChar b = none := by
      by_contra hall
      push_neg at hall
      have hchars := chars_hex_of_bytes_hex hex.data hall
      rcases h with h | ⟨c, hc, hn⟩
      · apply h
        have h1 := join_map_utf8Bytes_hex hex.data hchars
        unfold goBytes at hlen
        rw [h1] at hlen
        simpa using hlen
      · rw [hchars c hc] at hn
        cases hn
    obtain ⟨b, hb⟩ := hexDecode_bad (goBytes hex) hbad
    exact ⟨_, by simp [hlen, hb], Or.inr ⟨b, rfl⟩⟩
  · exact ⟨_, by simp [hlen], Or.inl rfl⟩

theorem hexDecode_ok (l : List Nat) (h : ∀ c ∈ l, fromHexChar c ≠ none)
    (heven : l.length % 2 = 0) :
    ∃ bs, hexDecode l = .ok bs ∧ bs.length * 2 = l.length := by
  induction l using hexDecode.induct with
  | case1 => exact ⟨[], rfl, rfl⟩
  | case2 p hp => simp at heven
  | case3 p a hp => simp at heven
  | case4 p q rest hp => exact absurd hp (h p (by simp))
  | case5 p q rest a hp hq => exact absurd hq (h q (by simp))
  | case6 p q rest a hp b hq e he ih =>
    obtain ⟨bs, hbs, _⟩ := ih (fun c hc => h c (by simp [hc])) (by simp at heven; omega)
    simp [hbs] at he
  | case7 p q rest a hp b hq bs he ih =>
    obtain ⟨bs1, hbs, hlen⟩ := ih (fun c hc => h c (by simp [hc])) (by simp at heven; omega)
    rw [he] at hbs
    cases hbs
    exact ⟨(a * 16 + b) :: bs, by simp [hexDecode, hp, hq, he], by simp; omega⟩

/-- The identifier parse succeeds, with twelve bytes, on every string that is not malformed. -/
theorem wellformed_accepted (hex : String) (h : ¬ Malformed hex) :
    ∃ id, ObjectIDFromHex hex = .ok id ∧ id.length = 12 := by
  simp only [Malformed, not_or, not_exists, not_and, ne_eq, not_not] at h
  obtain ⟨hlen, hall⟩ := h
  have hchars : ∀ c ∈ hex.data, isHexChar c = true := by
    intro c hc
    simpa using hall c hc
  have hbytes : goBytes hex = hex.data.map Char.toNat := join_map_utf8Bytes_hex hex.data hchars
  have hl : hex.data.length = 24 := hlen
  have hsome : ∀ b ∈ goBytes hex, fromHexChar b ≠ none := by
    intro b hb hn
    rw [hbytes] at hb
    simp only [List.mem_map] at hb
    obtain ⟨c, hc, rfl⟩ := hb
    have h1 := fromHexChar_isSome_of_isHexChar c (hchars c hc)
    simp [hn] at h1
  have hlen24 : (goBytes hex).length = 24 := by rw [hbytes]; simpa using hl
  obtain ⟨bs, hbs, hb⟩ := hexDecode_ok (goBytes hex) hsome (by rw [hlen24])
  exact ⟨bs, by simp [ObjectIDFromHex, hlen24, hbs], by omega⟩

/-! ## Lemmas: the delete request -/

theorem idFilter_matches (id : ObjectID) (d : Document) :
    (idFilter id).matches d = hasId id d := by
  simp [idFilter, Filter.matches, hasId]

theorem deleteFirst_none (f : Filter) (l : List Document) (h : ∀ d ∈ l, f.matches d = false) :
    deleteFirst f l = (l, 0) := by
  induction l with
  | nil => rfl
  | cons d ds ih =>
    have hd : f.matches d = false := h d (by simp)
    have := ih (fun x hx => h x (by simp [hx]))
    simp [deleteFirst, hd, this]

theorem deleteFirst_cases (f : Filter) (l : List Document) :
    (deleteFirst f l = (l, 0) ∧ ∀ d ∈ l, f.matches d = false) ∨
    ∃ pre d post, l = pre ++ d :: post ∧ deleteFirst f l = (pre ++ post, 1) ∧
      f.matches d = true ∧ ∀ x ∈ pre, f.matches x = false := by
  induction l with
  | nil => left; simp [deleteFirst]
  | cons d ds ih =>
    by_cases hd : f.matches d = true
    · right
      exact ⟨[], d, ds, by simp, by simp [deleteFirst, hd], hd, by simp⟩
    · have hd' : f.matches d = false := by simpa using hd
      rcases ih with ⟨h1, h2⟩ | ⟨pre, x, post, h1, h2, h3, h4⟩
      · left
        refine ⟨by simp [deleteFirst, hd', h1], ?_⟩
        intro y hy
        simp at hy
        rcases hy with rfl | hy
        · exact hd'
        · exact h2 y hy
      · right
        refine ⟨d :: pre, x, post, by simp [h1], by simp [deleteFirst, hd', h2], h3, ?_⟩
        intro y hy
        simp at hy
        rcases hy with rfl | hy
        · exact hd'
        · exact h4 y hy

theorem deleteFirst_once (f : Filter) (l : List Document) (h : l.countP f.matches = 1) :
    (deleteFirst f l).2 = 1 ∧ (deleteFirst f (deleteFirst f l).1).2 = 0 := by
  rcases deleteFirst_cases f l with ⟨_, h2⟩ | ⟨pre, d, post, h1, h2, h3, h4⟩
  · have : l.countP f.matches = 0 := by
      rw [List.countP_eq_zero]
      intro a ha
      simp [h2 a ha]
    omega
  · subst h1
    rw [h2]
    refine ⟨rfl, ?_⟩
    simp [List.countP_append, List.countP_cons, h3] at h
    have hnone : ∀ x ∈ pre ++ post, f.matches x = false := by
      intro x hx
      simp at hx
      rcases hx with hx | hx
      · exact h4 x hx
      · have hp : post.countP f.matches = 0 := by omega
        rw [List.countP_eq_zero] at hp
        simpa using hp x hx
    rw [deleteFirst_none f _ hnone]

theorem run_eq_runWith (w : World) (srv : Server) : run w srv = runWith w srv targetHex := rfl

theorem targetHex_parses : ObjectIDFromHex targetHex = .ok targetID := rfl

/-- Every run follows exactly one of seven paths, told apart by the first call that fails. -/
theorem runWith_cases (w : World) (srv : Server) (hex : String) :
    (∃ e, w.dotenvErr = some e ∧
      runWith w srv hex = ⟨1, [.fatal (.str "Error loading .env file")], srv⟩) ∨
    (∃ e, w.dotenvErr = none ∧ w.connectErr (mongoURI w.config) = some e ∧
      runWith w srv hex = ⟨1, [.connect (mongoURI w.config),
        .fatal (.str ("MongoDB connection error: " ++ e))], srv⟩) ∨
    (∃ e, w.dotenvErr = none ∧ w.connectErr (mongoURI w.config) = none ∧ w.pingErr = some e ∧
      runWith w srv hex = ⟨1, [.connect (mongoURI w.config), .ping,
        .fatal (.err (.reported e))], srv⟩) ∨
    (∃ e, w.dotenvErr = none ∧ w.connectErr (mongoURI w.config) = none ∧ w.pingErr = none ∧
      ObjectIDFromHex hex = .error e ∧
      runWith w srv hex = ⟨1, [.connect (mongoURI w.config), .ping, .fatal (.err e)], srv⟩) ∨
    (∃ id e, w.dotenvErr = none ∧ w.connectErr (mongoURI w.config) = none ∧ w.pingErr = none ∧
      ObjectIDFromHex hex = .ok id ∧ w.deleteErr = some e ∧
      runWith w srv hex = ⟨1, [.connect (mongoURI w.config), .ping,
        .deleteOne w.handle (idFilter id), .fatal (.err (.reported e))], srv⟩) ∨
    (∃ id, w.Healthy ∧ ObjectIDFromHex hex = .ok id ∧ w.disconnectErr = none ∧
      runWith w srv hex = ⟨0, [.connect (mongoURI w.config), .ping,
        .deleteOne w.handle (idFilter id),
        .println (toString (deleteFirst (idFilter id)
          (srv w.handle.database w.handle.name)).2 ++ "\n"),
        .disconnect],
        srv.set w.handle (deleteFirst (idFilter id) (srv w.handle.database w.handle.name)).1⟩) ∨
    (∃ id e, w.Healthy ∧ ObjectIDFromHex hex = .ok id ∧ w.disconnectErr = some e ∧
      runWith w srv hex = ⟨1, [.connect (mongoURI w.config), .ping,
        .deleteOne w.handle (idFilter id),
        .println (toString (deleteFirst (idFilter id)
          (srv w.handle.database w.handle.name)).2 ++ "\n"),
        .disconnect, .fatal (.str ("MongoDB disconnection error: " ++ e))],
        srv.set w.handle (deleteFirst (idFilter id) (srv w.handle.database w.handle.name)).1⟩) := by
  cases h0 : w.dotenvErr with
  | some e => exact Or.inl ⟨e, rfl, runWith_dotenv w srv hex e h0⟩
  | none =>
    right
    cases h1 : w.connectErr (mongoURI w.config) with
    | some e => exact Or.inl ⟨e, rfl, rfl, runWith_connect w srv hex e h0 h1⟩
    | none =>
      right
      cases h2 : w.pingErr with
      | some e => exact Or.inl ⟨e, rfl, rfl, rfl, runWith_ping w srv hex e h0 h1 h2⟩
      | none =>
        right
        cases h3 : ObjectIDFromHex hex with
        | error e => exact Or.inl ⟨e, rfl, rfl, rfl, rfl, runWith_parse w srv hex e h0 h1 h2 h3⟩
        | ok id =>
          right
          cases h4 : w.deleteErr with
          | some e =>
            exact Or.inl ⟨id, e, rfl, rfl, rfl, rfl, rfl,
              runWith_delete w srv hex e id h0 h1 h2 h3 h4⟩
          | none =>
            right
            cases h5 : w.disconnectErr with
            | none =>
              exact Or.inl ⟨id, ⟨h0, h1, h2, h4⟩, rfl, rfl,
                runWith_ok w srv hex id h0 h1 h2 h3 h4 h5⟩
            | some e =>
              exact Or.inr ⟨id, e, ⟨h0, h1, h2, h4⟩, rfl, rfl,
                runWith_disconnect w srv hex e id h0 h1 h2 h3 h4 h5⟩


/-! ## C1: a malformed identifier -/

/-- C1, counterexample: with the malformed identifier `zz` and a reachable store,
the run has already connected and pinged when the identifier is rejected. -/
theorem malformed_identifier_reaches_network :
    Malformed "zz" ∧
    (runWith scenarioWorld scenarioServer "zz").trace =
      [.connect "mongodb://u:p@localhost:27017/", .ping, .fatal (.err .ErrInvalidHex)] := by
  decide

/-- C1, amended: for every malformed identifier string the run exits with status 1
without ever calling delete and without writing to standard output; when loading,
connecting and pinging succeed, it fails with the invalid-identifier error of the
parse, after the connect and the ping and as the last effect of the run. -/
theorem malformed_identifier_rejected_before_delete (w : World) (srv : Server) (hex : String)
    (hbad : Malformed hex) :
    (runWith w srv hex).exitCode = 1 ∧
    (runWith w srv hex).trace.countP Event.isDelete = 0 ∧
    stdout (runWith w srv hex).trace = [] ∧
    (w.dotenvErr = none → w.connectErr (mongoURI w.config) = none → w.pingErr = none →
      ∃ e, ObjectIDFromHex hex = .error e ∧
        (e = .ErrInvalidHex ∨ ∃ b, e = .InvalidByteError b) ∧
        (runWith w srv hex).trace =
          [.connect (mongoURI w.config), .ping, .fatal (.err e)]) := by
  obtain ⟨e, he, hkind⟩ := malformed_rejected hex hbad
  rcases runWith_cases w srv hex with ⟨x, h0, hr⟩ | ⟨x, h0, h1, hr⟩ | ⟨x, h0, h1, h2, hr⟩ |
    ⟨x, h0, h1, h2, h3, hr⟩ | ⟨id, x, h0, h1, h2, h3, h4, hr⟩ | ⟨id, hh, h3, h5, hr⟩ |
    ⟨id, x, hh, h3, h5, hr⟩
  · simp [hr, h0, stdout, Event.isDelete]
  · simp [hr, h0, h1, stdout, Event.isDelete]
  · simp [hr, h0, h1, h2, stdout, Event.isDelete]
  · rw [he] at h3
    cases h3
    simp [hr, stdout, Event.isDelete, he, hkind]
  · rw [he] at h3; cases h3
  · rw [he] at h3; cases h3
  · rw [he] at h3; cases h3

/-- C1, witness: the amended statement at the identifier `zz` in the scenario. -/
theorem malformed_identifier_rejected_before_delete_witness :
    Malformed "zz" ∧
    (runWith scenarioWorld scenarioServer "zz").exitCode = 1 ∧
    (runWith scenarioWorld scenarioServer "zz").trace.countP Event.isDelete = 0 ∧
    stdout (runWith scenarioWorld scenarioServer "zz").trace = [] :=
  ⟨by decide,
    (malformed_identifier_rejected_before_delete scenarioWorld scenarioServer "zz" (by decide)).1,
    (malformed_identifier_rejected_before_delete scenarioWorld scenarioServer "zz"
      (by decide)).2.1,
    (malformed_identifier_rejected_before_delete scenarioWorld scenarioServer "zz"
      (by decide)).2.2.1⟩

/-! ## C2: closing the connection -/

/-- C2, the code at the failing inputs: when the ping fails, and when the delete
request fails, the run ends in `log.Fatal` with status 1 and `Disconnect` is never
called, although the connect succeeded. -/
theorem failed_step_skips_deferred_disconnect :
    ((run pingFailsWorld scenarioServer).trace =
        [.connect "mongodb://u:p@localhost:27017/", .ping,
          .fatal (.err (.reported "server selection timeout"))] ∧
      (run pingFailsWorld scenarioServer).trace.countP Event.isDisconnect = 0 ∧
      (run pingFailsWorld scenarioServer).exitCode = 1) ∧
    ((run deleteFailsWorld scenarioServer).trace =
        [.connect "mongodb://u:p@localhost:27017/", .ping,
          .deleteOne ⟨"db", "coll"⟩ (idFilter targetID),
          .fatal (.err (.reported "connection reset by peer"))] ∧
      (run deleteFailsWorld scenarioServer).trace.countP Event.isDisconnect = 0 ∧
      (run deleteFailsWorld scenarioServer).exitCode = 1) := by
  decide

/-! ## C3: empty configuration fields -/

/-- C3, counterexample: with the database field empty the program reports no
configuration error before connecting; it connects, pings and sends the delete
request, and only the answer to that request ends the run. -/
theorem empty_field_still_connects :
    emptyDatabaseWorld.config.Database = "" ∧
    (run emptyDatabaseWorld emptyServer).trace =
      [.connect "mongodb://u:p@localhost:27017/", .ping,
        .deleteOne ⟨"", "coll"⟩ (idFilter targetID),
        .fatal (.err (.reported "the Database field must be set on Operation"))] ∧
    (run emptyDatabaseWorld emptyServer).exitCode = 1 := by
  decide

/-- C3, amended: the program fails with a configuration error before attempting to
connect when the `.env` file cannot be loaded (status 1, no other effect); an
empty database or collection field is not checked before connecting: when the file
loads and user, password, host and port are non-empty, the first effect of the run
is the connect call with the URI built from these four fields, whatever database
and collection hold.  Nothing is stated about a configuration whose user,
password, host or port is empty. -/
theorem configuration_error_only_from_dotenv (w : World) (srv : Server) (hex : String) :
    (∀ e, w.dotenvErr = some e →
      (runWith w srv hex).exitCode = 1 ∧
      (runWith w srv hex).trace = [.fatal (.str "Error loading .env file")]) ∧
    (w.dotenvErr = none →
      w.config.User ≠ "" → w.config.Password ≠ "" → w.config.Host ≠ "" → w.config.Port ≠ "" →
      (runWith w srv hex).trace.head? = some (.connect (mongoURI w.config)) ∧
      mongoURI w.config =
        "mongodb://" ++ w.config.User ++ ":" ++ w.config.Password ++ "@" ++ w.config.Host ++
          ":" ++ w.config.Port ++ "/") := by
  rcases runWith_cases w srv hex with ⟨x, h0, hr⟩ | ⟨x, h0, h1, hr⟩ | ⟨x, h0, h1, h2, hr⟩ |
    ⟨x, h0, h1, h2, h3, hr⟩ | ⟨id, x, h0, h1, h2, h3, h4, hr⟩ | ⟨id, hh, h3, h5, hr⟩ |
    ⟨id, x, hh, h3, h5, hr⟩
  · simp [hr, h0]
  · simp [hr, h0, mongoURI_eq]
  · simp [hr, h0, mongoURI_eq]
  · simp [hr, h0, mongoURI_eq]
  · simp [hr, h0, mongoURI_eq]
  · simp [hr, hh.1, mongoURI_eq]
  · simp [hr, hh.1, mongoURI_eq]

/-- C3, witness: the `.env` file missing, and the database field empty with the
other five fields set. -/
theorem configuration_error_only_from_dotenv_witness :
    ((run dotenvFailsWorld emptyServer).exitCode = 1 ∧
      (run dotenvFailsWorld emptyServer).trace = [.fatal (.str "Error loading .env file")]) ∧
    emptyDatabaseWorld.config.Database = "" ∧
    (run emptyDatabaseWorld emptyServer).trace.head? =
      some (.connect (mongoURI emptyDatabaseWorld.config)) :=
  ⟨(configuration_error_only_from_dotenv dotenvFailsWorld emptyServer targetHex).1 _ rfl,
    by decide,
    ((configuration_error_only_from_dotenv emptyDatabaseWorld emptyServer targetHex).2 rfl
      (by decide) (by decide) (by decide) (by decide)).1⟩

/-! ## C4: the target document is absent -/

/-- C4, counterexample: connect and ping succeed and the store holds no document,
yet (a) when the delete request itself fails the run takes the fatal branch and
writes nothing, and (b) when closing fails the run writes 0 and then takes the
fatal branch of the deferred disconnect. -/
theorem absent_document_run_can_end_fatally :
    ((run deleteFailsWorld emptyServer).trace =
        [.connect "mongodb://u:p@localhost:27017/", .ping,
          .deleteOne ⟨"db", "coll"⟩ (idFilter targetID),
          .fatal (.err (.reported "connection reset by peer"))] ∧
      stdout (run deleteFailsWorld emptyServer).trace = [] ∧
      (run deleteFailsWorld emptyServer).exitCode = 1) ∧
    ((run disconnectFailsWorld emptyServer).trace =
        [.connect "mongodb://u:p@localhost:27017/", .ping,
          .deleteOne ⟨"db", "coll"⟩ (idFilter targetID), .println "0\n", .disconnect,
          .fatal (.str "MongoDB disconnection error: client is disconnected")] ∧
      (run disconnectFailsWorld emptyServer).exitCode = 1) := by
  decide

/-- C4, amended: for every run in which loading, connect, ping and the delete
request itself succeed and the collection holds no document with the target
identifier, the delete step returns `DeletedCount = 0` and no error, leaves the
collection as it was, and the program writes 0 to standard output; when closing
the connection succeeds too, no fatal branch is taken and the exit status is 0. -/
theorem absent_document_prints_zero (w : World) (srv : Server) (hw : w.Healthy)
    (habs : ∀ d ∈ srv w.handle.database w.handle.name, hasId targetID d = false) :
    (∀ t, ∃ s, DeleteOne w w.handle (idFilter targetID) ⟨t, srv⟩ = .ret (.ok ⟨0⟩) s ∧
      s.server w.handle.database w.handle.name = srv w.handle.database w.handle.name) ∧
    stdout (run w srv).trace = ["0\n"] ∧
    (w.disconnectErr = none →
      (run w srv).exitCode = 0 ∧ (run w srv).trace.countP Event.isFatal = 0) := by
  have hnone : deleteFirst (idFilter targetID) (srv w.handle.database w.handle.name) =
      (srv w.handle.database w.handle.name, 0) :=
    deleteFirst_none _ _ (fun d hd => by rw [idFilter_matches]; exact habs d hd)
  obtain ⟨h0, h1, h2, h4⟩ := hw
  refine ⟨?_, ?_, ?_⟩
  · intro t
    simp [DeleteOne, h4, hnone, Server.set]
  · cases h5 : w.disconnectErr with
    | none =>
      rw [run_eq_runWith, runWith_ok w srv targetHex targetID h0 h1 h2 targetHex_parses h4 h5]
      simp only [World.handle] at hnone
      simp [stdout, hnone]
      rfl
    | some e =>
      rw [run_eq_runWith,
        runWith_disconnect w srv targetHex e targetID h0 h1 h2 targetHex_parses h4 h5]
      simp only [World.handle] at hnone
      simp [stdout, hnone]
      rfl
  · intro h5
    rw [run_eq_runWith, runWith_ok w srv targetHex targetID h0 h1 h2 targetHex_parses h4 h5]
    simp [Event.isFatal]

/-- C4, witness: the scenario with an empty store. -/
theorem absent_document_prints_zero_witness :
    stdout (run scenarioWorld emptyServer).trace = ["0\n"] ∧
    (run scenarioWorld emptyServer).exitCode = 0 :=
  ⟨(absent_document_prints_zero scenarioWorld emptyServer (by decide) (by decide)).2.1,
    ((absent_document_prints_zero scenarioWorld emptyServer (by decide) (by decide)).2.2
      rfl).1⟩

/-! ## C5: deleting a document that is present once -/

/-- C5: for every identifier and every collection in which exactly one document has
that identifier, the delete step reports `DeletedCount = 1`, and the same delete on
the resulting collection reports 0; with the identifier `642f238625b383fba5ca34f0`
a run of the program (load, connect, ping and delete request succeeding) prints 1,
and the next such run, on the store the first one left behind, prints 0. -/
theorem delete_once_then_absent (w1 w2 : World) (srv : Server) :
    (∀ (id : ObjectID) (docs : List Document), docs.countP (hasId id) = 1 →
      (deleteFirst (idFilter id) docs).2 = 1 ∧
      (deleteFirst (idFilter id) (deleteFirst (idFilter id) docs).1).2 = 0) ∧
    (w1.Healthy → w2.Healthy → w2.handle = w1.handle →
      (srv w1.handle.database w1.handle.name).countP (hasId targetID) = 1 →
      stdout (run w1 srv).trace = ["1\n"] ∧
      stdout (run w2 (run w1 srv).server).trace = ["0\n"]) := by
  have hstore : ∀ (id : ObjectID) (docs : List Document), docs.countP (hasId id) = 1 →
      (deleteFirst (idFilter id) docs).2 = 1 ∧
      (deleteFirst (idFilter id) (deleteFirst (idFilter id) docs).1).2 = 0 := by
    intro id docs hone
    have hm : (idFilter id).matches = hasId id := funext (idFilter_matches id)
    exact deleteFirst_once (idFilter id) docs (by rw [hm]; exact hone)
  refine ⟨hstore, ?_⟩
  intro hw1 hw2 hsame hone
  have honce := hstore targetID _ hone
  obtain ⟨a0, a1, a2, a4⟩ := hw1
  obtain ⟨b0, b1, b2, b4⟩ := hw2
  have hsrv : (run w1 srv).server w2.handle.database w2.handle.name =
      (deleteFirst (idFilter targetID) (srv w1.handle.database w1.handle.name)).1 := by
    rw [hsame, run_eq_runWith]
    cases a5 : w1.disconnectErr with
    | none =>
      rw [runWith_ok w1 srv targetHex targetID a0 a1 a2 targetHex_parses a4 a5]
      simp [Server.set, World.handle]
    | some e =>
      rw [runWith_disconnect w1 srv targetHex e targetID a0 a1 a2 targetHex_parses a4 a5]
      simp [Server.set, World.handle]
  constructor
  · simp only [World.handle] at honce
    rw [run_eq_runWith]
    cases a5 : w1.disconnectErr with
    | none =>
      rw [runWith_ok w1 srv targetHex targetID a0 a1 a2 targetHex_parses a4 a5]
      simp [stdout, honce.1]
      rfl
    | some e =>
      rw [runWith_disconnect w1 srv targetHex e targetID a0 a1 a2 targetHex_parses a4 a5]
      simp [stdout, honce.1]
      rfl
  · simp only [World.handle] at honce hsrv
    rw [run_eq_runWith w2]
    cases b5 : w2.disconnectErr with
    | none =>
      rw [runWith_ok w2 _ targetHex targetID b0 b1 b2 targetHex_parses b4 b5]
      simp [stdout, hsrv, honce.2]
      rfl
    | some e =>
      rw [runWith_disconnect w2 _ targetHex e targetID b0 b1 b2 targetHex_parses b4 b5]
      simp [stdout, hsrv, honce.2]
      rfl

/-- C5, witness: the scenario, whose collection holds the target document once; the
first run prints 1, the next run prints 0, also when the second run cannot close
its connection. -/
theorem delete_once_then_absent_witness :
    stdout (run scenarioWorld scenarioServer).trace = ["1\n"] ∧
    stdout (run disconnectFailsWorld (run scenarioWorld scenarioServer).server).trace =
      ["0\n"] :=
  (delete_once_then_absent scenarioWorld disconnectFailsWorld scenarioServer).2
    (by decide) (by decide) (by decide) (by decide)

/-! ## C6: exit status -/

/-- C6, counterexample: connect, ping, parse and delete all succeed, the count is
written to standard output, and the exit status is nevertheless 1, because closing
the connection fails in the deferred function. -/
theorem disconnect_failure_exits_nonzero_after_print :
    (run disconnectFailsWorld scenarioServer).trace =
      [.connect "mongodb://u:p@localhost:27017/", .ping,
        .deleteOne ⟨"db", "coll"⟩ (idFilter targetID), .println "1\n", .disconnect,
        .fatal (.str "MongoDB disconnection error: client is disconnected")] ∧
    (run disconnectFailsWorld scenarioServer).exitCode = 1 ∧
    stdout (run disconnectFailsWorld scenarioServer).trace = ["1\n"] := by
  decide

/-- C6, amended: the exit status is 0 exactly when loading the `.env` file, connect,
ping, the identifier parse, the delete request and the disconnect all succeed
(whether or not a document matched), and is 1 otherwise; when the load, connect,
ping, parse or delete fails nothing is written to standard output; when all of
these succeed the deleted count is written, also if the disconnect then fails. -/
theorem exit_status_of_run (w : World) (srv : Server) (hex : String) :
    ((runWith w srv hex).exitCode = 0 ↔
      (w.Healthy ∧ (∃ id, ObjectIDFromHex hex = .ok id) ∧ w.disconnectErr = none)) ∧
    ((runWith w srv hex).exitCode ≠ 0 → (runWith w srv hex).exitCode = 1) ∧
    (¬ (w.Healthy ∧ ∃ id, ObjectIDFromHex hex = .ok id) →
      (runWith w srv hex).exitCode = 1 ∧ stdout (runWith w srv hex).trace = []) ∧
    (∀ id, w.Healthy → ObjectIDFromHex hex = .ok id →
      stdout (runWith w srv hex).trace =
        [toString (deleteFirst (idFilter id) (srv w.handle.database w.handle.name)).2
          ++ "\n"]) := by
  rcases runWith_cases w srv hex with ⟨x, h0, hr⟩ | ⟨x, h0, h1, hr⟩ | ⟨x, h0, h1, h2, hr⟩ |
    ⟨x, h0, h1, h2, h3, hr⟩ | ⟨id, x, h0, h1, h2, h3, h4, hr⟩ | ⟨id, hh, h3, h5, hr⟩ |
    ⟨id, x, hh, h3, h5, hr⟩
  · simp [hr, World.Healthy, h0, stdout]
  · simp [hr, World.Healthy, h0, h1, stdout]
  · simp [hr, World.Healthy, h0, h1, h2, stdout]
  · simp [hr, World.Healthy, h0, h1, h2, h3, stdout]
  · simp [hr, World.Healthy, h0, h1, h2, h3, h4, stdout]
  · simp [hr, hh, h3, h5, stdout]
  · simp [hr, hh, h3, h5, stdout]

/-- C6, witness: a failed ping gives status 1 and an empty standard output; the
scenario run gives status 0. -/
theorem exit_status_of_run_witness :
    ((run pingFailsWorld scenarioServer).exitCode = 1 ∧
      stdout (run pingFailsWorld scenarioServer).trace = []) ∧
    (run scenarioWorld scenarioServer).exitCode = 0 :=
  ⟨(exit_status_of_run pingFailsWorld scenarioServer targetHex).2.2.1
      (fun h => absurd h.1 (by decide)),
    (exit_status_of_run scenarioWorld scenarioServer targetHex).1.2
      ⟨by decide, ⟨targetID, rfl⟩, rfl⟩⟩

/-! ## C7: order of the effects of a successful run -/

/-- C7, counterexample: in the successful scenario run the deleted count is
written before the connection is closed. -/
theorem report_precedes_close :
    (run scenarioWorld scenarioServer).exitCode = 0 ∧
    (run scenarioWorld scenarioServer).trace =
      [.connect "mongodb://u:p@localhost:27017/", .ping,
        .deleteOne ⟨"db", "coll"⟩ (idFilter targetID), .println "1\n", .disconnect] := by
  decide

/-- C7, amended: for every successful run of `main` the effect trace is exactly
connect, ping, delete, print of the deleted count, disconnect, in that order: the
deleted count is written before the connection is closed. -/
theorem successful_run_trace (w : World) (srv : Server) (hw : w.Healthy)
    (hclose : w.disconnectErr = none) :
    (run w srv).exitCode = 0 ∧
    (run w srv).trace =
      [.connect (mongoURI w.config), .ping, .deleteOne w.handle (idFilter targetID),
        .println (toString (deleteFirst (idFilter targetID)
          (srv w.handle.database w.handle.name)).2 ++ "\n"),
        .disconnect] := by
  obtain ⟨h0, h1, h2, h4⟩ := hw
  rw [run_eq_runWith, runWith_ok w srv targetHex targetID h0 h1 h2 targetHex_parses h4 hclose]
  simp [World.handle]

/-- C7, witness: the scenario. -/
theorem successful_run_trace_witness :
    (run scenarioWorld scenarioServer).exitCode = 0 ∧
    (run scenarioWorld scenarioServer).trace =
      [.connect (mongoURI scenarioWorld.config), .ping,
        .deleteOne scenarioWorld.handle (idFilter targetID),
        .println (toString (deleteFirst (idFilter targetID)
          (scenarioServer scenarioWorld.handle.database scenarioWorld.handle.name)).2 ++ "\n"),
        .disconnect] :=
  successful_run_trace scenarioWorld scenarioServer (by decide) rfl

/-! ## C8: what the delete step changes -/

/-- C8: for every identifier and every store state, the filter built by the delete
step selects exactly the documents whose `_id` equals the identifier; the delete
request leaves every other collection as it was and, in its own collection, either
removes nothing or removes one document, which has that identifier, keeping all
others in place; the reported `DeletedCount` is the number of removed documents
and is 0 or 1.  In a run of the program the delete call carries this filter. -/
theorem delete_step_frame (w : World) (id : ObjectID) (c : CollectionHandle) (s : Proc) :
    idFilter id = [("_id", .objectID id)] ∧
    (∀ d : Document, (idFilter id).matches d = true ↔ d.lookup "_id" = some (.objectID id)) ∧
    (∃ res s1, DeleteOne w c (idFilter id) s = .ret res s1 ∧
      (∀ db name, ¬ (db = c.database ∧ name = c.name) → s1.server db name = s.server db name) ∧
      ((s1.server c.database c.name = s.server c.database c.name ∧
          ∀ r, res = .ok r → r.DeletedCount = 0) ∨
        (∃ pre d post, s.server c.database c.name = pre ++ d :: post ∧
          s1.server c.database c.name = pre ++ post ∧
          d.lookup "_id" = some (.objectID id) ∧ res = .ok ⟨1⟩)) ∧
      (∀ r, res = .ok r → (r.DeletedCount = 0 ∨ r.DeletedCount = 1) ∧
        r.DeletedCount + (s1.server c.database c.name).length =
          (s.server c.database c.name).length)) ∧
    (∀ srv hex h f, Event.deleteOne h f ∈ (runWith w srv hex).trace →
      h = w.handle ∧ ∃ parsed, ObjectIDFromHex hex = .ok parsed ∧ f = idFilter parsed) := by
  have hmatch : ∀ d : Document,
      (idFilter id).matches d = true ↔ d.lookup "_id" = some (.objectID id) := by
    intro d
    simp [idFilter, Filter.matches]
  refine ⟨rfl, hmatch, ?_, ?_⟩
  · cases h4 : w.deleteErr with
    | some e =>
      refine ⟨.error (.reported e), { s with trace := s.trace ++ [.deleteOne c (idFilter id)] },
        by simp [DeleteOne, h4], by simp, Or.inl ⟨rfl, by simp⟩, by simp⟩
    | none =>
      refine ⟨.ok ⟨(deleteFirst (idFilter id) (s.server c.database c.name)).2⟩,
        { trace := s.trace ++ [.deleteOne c (idFilter id)],
          server := s.server.set c (deleteFirst (idFilter id) (s.server c.database c.name)).1 },
        by simp [DeleteOne, h4], ?_, ?_, ?_⟩
      · intro db name hne
        simp [Server.set, hne]
      · rcases deleteFirst_cases (idFilter id) (s.server c.database c.name) with
          ⟨h1, _⟩ | ⟨pre, d, post, h1, h2, h3, _⟩
        · left
          simp [Server.set, h1]
        · right
          exact ⟨pre, d, post, h1, by simp [Server.set, h2], (hmatch d).1 h3, by simp [h2]⟩
      · intro r hr
        cases hr
        rcases deleteFirst_cases (idFilter id) (s.server c.database c.name) with
          ⟨h1, _⟩ | ⟨pre, d, post, h1, h2, h3, _⟩
        · simp [Server.set, h1]
        · rw [h1] at h2
          simp [Server.set, h2, h1]
          omega
  · intro srv hex h f hmem
    rcases runWith_cases w srv hex with ⟨x, h0, hr⟩ | ⟨x, h0, h1, hr⟩ | ⟨x, h0, h1, h2, hr⟩ |
      ⟨x, h0, h1, h2, h3, hr⟩ | ⟨id1, x, h0, h1, h2, h3, h4, hr⟩ | ⟨id1, hh, h3, h5, hr⟩ |
      ⟨id1, x, hh, h3, h5, hr⟩
    · simp [hr] at hmem
    · simp [hr] at hmem
    · simp [hr] at hmem
    · simp [hr] at hmem
    · simp [hr] at hmem
      exact ⟨hmem.1, id1, h3, hmem.2⟩
    · simp [hr] at hmem
      exact ⟨hmem.1, id1, h3, hmem.2⟩
    · simp [hr] at hmem
      exact ⟨hmem.1, id1, h3, hmem.2⟩


/-- C8, witness: deleting the target document from the scenario collection
removes that document and keeps the other one. -/
theorem delete_step_frame_witness :
    (idFilter targetID).matches [("_id", .objectID targetID), ("name", .string "target")] = true ∧
    (run scenarioWorld scenarioServer).server "db" "coll" =
      [[("_id", .objectID [1, 2, 3, 4, 5, 6, 7, 8, 9, 10, 11, 12]), ("name", .string "other")]] :=
  ⟨((delete_step_frame scenarioWorld targetID scenarioWorld.handle ⟨[], scenarioServer⟩).2.1
      [("_id", .objectID targetID), ("name", .string "target")]).2 rfl,
    by decide⟩

/-! ## C9: no retry, the first failure ends the run -/

/-- C9: in every run connect, ping and delete are each called at most once; after
a failed connect there is no ping, delete or print; after a failed ping or a failed
identifier parse there is no delete and no print; after a failed delete there is no
print; every failure ends the run with status 1, and nothing follows a call of
`log.Fatal`. -/
theorem first_failure_terminates (w : World) (srv : Server) (hex : String) :
    ((runWith w srv hex).trace.countP Event.isConnect ≤ 1 ∧
      (runWith w srv hex).trace.countP Event.isPing ≤ 1 ∧
      (runWith w srv hex).trace.countP Event.isDelete ≤ 1) ∧
    (∀ e, w.connectErr (mongoURI w.config) = some e →
      (runWith w srv hex).exitCode = 1 ∧
      (runWith w srv hex).trace.countP Event.isPing = 0 ∧
      (runWith w srv hex).trace.countP Event.isDelete = 0 ∧
      (runWith w srv hex).trace.countP Event.isPrint = 0) ∧
    (∀ e, w.pingErr = some e →
      (runWith w srv hex).exitCode = 1 ∧
      (runWith w srv hex).trace.countP Event.isDelete = 0 ∧
      (runWith w srv hex).trace.countP Event.isPrint = 0) ∧
    (∀ e, ObjectIDFromHex hex = .error e →
      (runWith w srv hex).exitCode = 1 ∧
      (runWith w srv hex).trace.countP Event.isDelete = 0 ∧
      (runWith w srv hex).trace.countP Event.isPrint = 0) ∧
    (∀ e, w.deleteErr = some e →
      (runWith w srv hex).exitCode = 1 ∧
      (runWith w srv hex).trace.countP Event.isPrint = 0) ∧
    (runWith w srv hex).trace.dropLast.countP Event.isFatal = 0 := by
  rcases runWith_cases w srv hex with ⟨x, h0, hr⟩ | ⟨x, h0, h1, hr⟩ | ⟨x, h0, h1, h2, hr⟩ |
    ⟨x, h0, h1, h2, h3, hr⟩ | ⟨id, x, h0, h1, h2, h3, h4, hr⟩ | ⟨id, hh, h3, h5, hr⟩ |
    ⟨id, x, hh, h3, h5, hr⟩
  · simp [hr, Event.isConnect, Event.isPing, Event.isDelete, Event.isPrint, Event.isFatal]
  · simp [hr, h1, Event.isConnect, Event.isPing, Event.isDelete, Event.isPrint, Event.isFatal]
  · simp [hr, h1, h2, Event.isConnect, Event.isPing, Event.isDelete, Event.isPrint,
      Event.isFatal]
  · simp [hr, h1, h2, h3, Event.isConnect, Event.isPing, Event.isDelete, Event.isPrint,
      Event.isFatal]
  · simp [hr, h1, h2, h3, h4, Event.isConnect, Event.isPing, Event.isDelete, Event.isPrint,
      Event.isFatal]
  · obtain ⟨h0, h1, h2, h4⟩ := hh
    simp [hr, h1, h2, h3, h4, Event.isConnect, Event.isPing, Event.isDelete, Event.isPrint,
      Event.isFatal]
  · obtain ⟨h0, h1, h2, h4⟩ := hh
    simp [hr, h1, h2, h3, h4, Event.isConnect, Event.isPing, Event.isDelete, Event.isPrint,
      Event.isFatal]

/-- C9, witness: a failed connect, a failed ping, a failed parse and a failed delete. -/
theorem first_failure_terminates_witness :
    (runWith connectFailsWorld scenarioServer targetHex).trace.countP Event.isPing = 0 ∧
    (runWith pingFailsWorld scenarioServer targetHex).trace.countP Event.isDelete = 0 ∧
    (runWith scenarioWorld scenarioServer "zz").trace.countP Event.isDelete = 0 ∧
    (runWith deleteFailsWorld scenarioServer targetHex).trace.countP Event.isPrint = 0 :=
  ⟨((first_failure_terminates connectFailsWorld scenarioServer targetHex).2.1 _ rfl).2.1,
    ((first_failure_terminates pingFailsWorld scenarioServer targetHex).2.2.1 _ rfl).2.1,
    ((first_failure_terminates scenarioWorld scenarioServer "zz").2.2.2.1 _ rfl).2.1,
    ((first_failure_terminates deleteFailsWorld scenarioServer targetHex).2.2.2.2.1 _ rfl).2⟩

/-! ## C10: the connection URI -/

/-- C10: for every configuration, empty fields included, the URI built by `main` is
`mongodb://` user `:` password `@` host `:` port `/`; it is never the empty string,
so the guard of line 47 is false and no run logs its message; the database and
collection fields have no influence on the URI. -/
theorem uri_shape_and_dead_guard (c : MongoConfig) :
    mongoURI c =
      "mongodb://" ++ c.User ++ ":" ++ c.Password ++ "@" ++ c.Host ++ ":" ++ c.Port ++ "/" ∧
    mongoURI c ≠ "" ∧
    (mongoURI c == "") = false ∧
    mongoURI ⟨"", "", "", "", "", ""⟩ = "mongodb://:@:/" ∧
    (∀ (w : World) (hex : String) (s : Proc),
      Event.fatal (.str "You must set your 'uri' variable.") ∉ s.trace →
      match mainWith w c hex s with
      | .ret _ s1 => Event.fatal (.str "You must set your 'uri' variable.") ∉ s1.trace
      | .exit _ s1 => Event.fatal (.str "You must set your 'uri' variable.") ∉ s1.trace) ∧
    (∀ (w : World) (srv : Server) (hex : String),
      Event.fatal (.str "You must set your 'uri' variable.") ∉ (runWith w srv hex).trace) ∧
    (∀ database collection : String,
      mongoURI { c with Database := database, Collection := collection } = mongoURI c) := by
  refine ⟨mongoURI_eq c, mongoURI_ne_empty c, by simpa using mongoURI_ne_empty c, by decide,
    ?_, ?_, fun _ _ => rfl⟩
  · intro w hex s hs
    have hne := mongoURI_ne_empty c
    cases h1 : w.connectErr (mongoURI c) <;> cases h2 : w.pingErr <;>
      cases h3 : ObjectIDFromHex hex <;> cases h4 : w.deleteErr <;>
      cases h5 : w.disconnectErr <;>
      simp [mainWith, mongoConnect, emit, logFatal, Bind.bind, M.bind, Pure.pure,
        M.pure, hne, h1, h2, h3, h4, h5, withDefer, afterDefer, Ping,
        DeleteOne, Client.collection, Println, deferredDisconnect, Disconnect, hs,
        GoError.text, guardText_ne_connect, guardText_ne_disconnect]
  · intro w srv hex
    rcases runWith_cases w srv hex with ⟨x, h0, hr⟩ | ⟨x, h0, h1, hr⟩ | ⟨x, h0, h1, h2, hr⟩ |
      ⟨x, h0, h1, h2, h3, hr⟩ | ⟨id, x, h0, h1, h2, h3, h4, hr⟩ | ⟨id, hh, h3, h5, hr⟩ |
      ⟨id, x, hh, h3, h5, hr⟩ <;>
      simp [hr, guardText_ne_connect, guardText_ne_disconnect]

end DeleteDocument
